import Mathlib

/-!
Shallow embedding of the policy-gate core of the repository
(`src/server/gate.js`, plus the second gate variant embedded at the end of
`src/server/trade.js`).

Modelling conventions:
* JavaScript numbers that the gate uses (timestamps in ms, notional values,
  rate ceilings, staleness windows) are modelled as `Int`; the gate only
  ever compares and subtracts them.  `Number(x || d)` on such fields is
  modelled by `jsOr`, which collapses the two falsy numeric cases (absent
  and `0`) exactly as JavaScript `||` does.
* Optional record fields (`order.symbol`, `config.limits`, ...) are
  `Option`s; an absent field is `none`.  `String(x || "")` becomes
  `(x.getD "")`.
* `Date.now()` is passed in explicitly as a parameter `now` (milliseconds);
  one evaluation is modelled as atomic, sampling a single instant, matching
  the synchronous, non-yielding pipeline.
* The policy version string `pg-${new Date().toISOString()}` is modelled by
  the millisecond instant that stamps it: ISO-8601 rendering with
  millisecond precision is injective on instants, so version equality is
  exactly stamp equality.
* The `Set` of halted symbols is modelled as a duplicate-free `List String`
  with membership, insertion (`setAdd`) and removal (`setDel`).
* Stateful methods become functions `GateState → ... → result × GateState`
  (or `GateState → GateState` for the administrative setters).
-/

/-- JavaScript `a || b` specialised to numbers: `0` (which also encodes an
absent field after `getD 0`) is falsy and falls through to `b`. -/
def jsOr (a b : Int) : Int :=
  if a = 0 then b else a

/-- JavaScript `String.prototype.toUpperCase` on the ASCII symbols the gate
handles: uppercase every character.  (Structurally recursive so that the
kernel can evaluate it on literals.) -/
def jsToUpper (s : String) : String :=
  ⟨s.data.map Char.toUpper⟩

/-- The `limits` sub-config of `config.json` (`rate_per_sec`,
`max_order_usdt`), all fields optional. -/
structure Limits where
  rate_per_sec : Option Int := none
  max_order_usdt : Option Int := none
deriving DecidableEq, Repr

/-- The `guards` sub-config (`max_staleness_ms`), optional. -/
structure Guards where
  max_staleness_ms : Option Int := none
deriving DecidableEq, Repr

/-- The slice of the configuration object the gate reads:
`kill_switch`, `limits`, `guards`; every field optional. -/
structure Config where
  kill_switch : Option Bool := none
  limits : Option Limits := none
  guards : Option Guards := none
deriving DecidableEq, Repr

/-- `this.config?.limits?.rate_per_sec || 5` — the argument the gate passes
to the `RateLimiter` constructor. -/
def Config.rateArg (c : Config) : Int :=
  jsOr ((c.limits.bind Limits.rate_per_sec).getD 0) 5

/-- `Number(this.config?.limits?.max_order_usdt || 0)`. -/
def Config.maxOrderUsdt (c : Config) : Int :=
  jsOr ((c.limits.bind Limits.max_order_usdt).getD 0) 0

/-- `Number(this.config?.guards?.max_staleness_ms || 0)`. -/
def Config.maxStalenessMs (c : Config) : Int :=
  jsOr ((c.guards.bind Guards.max_staleness_ms).getD 0) 0

/-- `this.config?.kill_switch` read as a truthy flag. -/
def Config.killSwitchOn (c : Config) : Bool :=
  c.kill_switch.getD false

/-- The order-intent record passed to `canExecute`:
`{symbol, side, notional|quote, reduceOnly|closeOnly|intent}`.
`reduceOnly` stores the truthiness of the JavaScript value
(`!!order.reduceOnly`); `closeOnly` is compared with `=== true`;
`intent` with `=== "close"`.  An absent field is `none`. -/
structure Order where
  symbol : Option String := none
  side : Option String := none
  notional : Option Int := none
  quote : Option Int := none
  reduceOnly : Option Bool := none
  closeOnly : Option Bool := none
  intent : Option String := none
deriving DecidableEq, Repr

/-- `Object.keys(order).length === 0`: no field of the record is present. -/
def Order.isEmpty (o : Order) : Bool :=
  o.symbol.isNone && o.side.isNone && o.notional.isNone && o.quote.isNone &&
    o.reduceOnly.isNone && o.closeOnly.isNone && o.intent.isNone

/-- `Number(order.notional || order.quote || 0)`. -/
def Order.notionalVal (o : Order) : Int :=
  jsOr (jsOr (o.notional.getD 0) (o.quote.getD 0)) 0

/-- State of the fixed-window per-second `RateLimiter`
(`maxPerSec`, `bucket`, `ts` — the window's wall-clock second). -/
structure RateLimiter where
  maxPerSec : Int
  bucket : Nat
  ts : Int
deriving DecidableEq, Repr

/-- `new RateLimiter(maxPerSec)`: `this.maxPerSec = Number(maxPerSec) || 5`,
`bucket = 0`, `ts = 0`. -/
def RateLimiter.new (maxPerSec : Int) : RateLimiter :=
  { maxPerSec := jsOr maxPerSec 5, bucket := 0, ts := 0 }

/-- `RateLimiter.allow()` at instant `nowMs` (ms): compute the current
wall-clock second with `Math.floor(Date.now() / 1000)`, lazily reset the
counter when the window advanced, deny without incrementing at the ceiling,
otherwise increment and admit. -/
def RateLimiter.allow (r : RateLimiter) (nowMs : Int) : Bool × RateLimiter :=
  let now := nowMs.fdiv 1000
  let r := if r.ts = now then r else { r with ts := now, bucket := 0 }
  if (r.bucket : Int) ≥ r.maxPerSec then (false, r)
  else (true, { r with bucket := r.bucket + 1 })

/-- Duplicate-free insertion, modelling `Set.add`. -/
def setAdd (l : List String) (s : String) : List String :=
  if s ∈ l then l else l ++ [s]

/-- Removal, modelling `Set.delete`. -/
def setDel (l : List String) (s : String) : List String :=
  l.filter (fun x => !(x == s))

/-- Decision record returned by `PolicyGate.allow` / `PolicyGate.deny`:
allows carry `expires_at = now + 3000`, denies carry `reason_detail` and
`denied_at`. -/
structure Decision where
  allow : Bool
  reason_code : String
  reason_detail : Option String := none
  policy_version : Int
  expires_at : Option Int := none
  denied_at : Option Int := none
deriving DecidableEq, Repr

/-- Mutable fields of a `PolicyGate` instance. -/
structure GateState where
  config : Config
  version : Int
  symbolHalt : List String
  globalHalt : Bool
  safeMode : Bool
  rateLimiter : RateLimiter
  lastSnapshotAt : Int
  startedAt : Int
deriving DecidableEq, Repr

/-- `new PolicyGate(config)` at instant `now`. -/
def PolicyGate.init (config : Option Config) (now : Int) : GateState :=
  { config := config.getD {}
    version := now
    symbolHalt := []
    globalHalt := false
    safeMode := false
    rateLimiter := RateLimiter.new (config.getD {}).rateArg
    lastSnapshotAt := now
    startedAt := now }

/-- `updateConfig(newCfg)` at instant `now`: swap the config, restamp the
version from the current instant, rebuild the `RateLimiter`. -/
def PolicyGate.updateConfig (st : GateState) (now : Int) (newCfg : Option Config) : GateState :=
  let c := newCfg.getD {}
  { st with config := c, version := now, rateLimiter := RateLimiter.new c.rateArg }

/-- `setGlobalHalt(on)`. -/
def PolicyGate.setGlobalHalt (st : GateState) (flag : Bool) : GateState :=
  { st with globalHalt := flag }

/-- `setSymbolHalt(sym, on)`: uppercase the symbol, return unchanged when
the result is the empty string (the only falsy string), otherwise add to or
remove from the halted set. -/
def PolicyGate.setSymbolHalt (st : GateState) (sym : Option String) (flag : Bool) : GateState :=
  let S := jsToUpper (sym.getD "")
  if S = "" then st
  else if flag then { st with symbolHalt := setAdd st.symbolHalt S }
  else { st with symbolHalt := setDel st.symbolHalt S }

/-- `setSafeMode(on)`. -/
def PolicyGate.setSafeMode (st : GateState) (flag : Bool) : GateState :=
  { st with safeMode := flag }

/-- `this.allow(reason)`. -/
def PolicyGate.allow (st : GateState) (now : Int) (reason : String) : Decision :=
  { allow := true
    reason_code := reason
    policy_version := st.version
    expires_at := some (now + 3000) }

/-- `this.deny(code, detail)`. -/
def PolicyGate.deny (st : GateState) (now : Int) (code detail : String) : Decision :=
  { allow := false
    reason_code := code
    reason_detail := some detail
    policy_version := st.version
    denied_at := some now }

/-- `this._isCloseOnly(order)`:
`!!order.reduceOnly || order.closeOnly === true || order.intent === "close"`. -/
def PolicyGate._isCloseOnly (o : Order) : Bool :=
  o.reduceOnly.getD false || o.closeOnly.getD false || decide (o.intent = some "close")

/-- Rules 1–9 of `canExecute`, shared verbatim by both gate variants.
The caller has already performed step 0 (`this.lastSnapshotAt = Date.now()`),
so `st.lastSnapshotAt` here is the refreshed timestamp — which is what the
staleness rule then reads (`Date.now() - (this.lastSnapshotAt || 0)`). -/
def PolicyGate.pipeline (st : GateState) (now : Int) (order : Order) : Decision × GateState :=
  if st.config.killSwitchOn then
    if PolicyGate._isCloseOnly order then
      (PolicyGate.allow st now "KILL_SWITCH_CLOSE_ONLY", st)
    else (PolicyGate.deny st now "KILL_SWITCH" "Global kill switch enabled", st)
  else if st.globalHalt && !(PolicyGate._isCloseOnly order) then
    (PolicyGate.deny st now "GLOBAL_HALT" "Trading globally halted", st)
  else
    let sym := jsToUpper (order.symbol.getD "")
    if sym != "" && decide (sym ∈ st.symbolHalt) && !(PolicyGate._isCloseOnly order) then
      (PolicyGate.deny st now "SYMBOL_HALT" ("Symbol " ++ sym ++ " halted"), st)
    else
      let res := st.rateLimiter.allow now
      let st := { st with rateLimiter := res.snd }
      if !res.fst then
        (PolicyGate.deny st now "RATE_LIMIT" "Too many requests per second", st)
      else if st.safeMode && !(PolicyGate._isCloseOnly order) then
        (PolicyGate.deny st now "SAFE_MODE" "Safe mode: close-only", st)
      else
        let maxStale := st.config.maxStalenessMs
        let age := now - jsOr st.lastSnapshotAt 0
        if maxStale > 0 && age > maxStale && !(PolicyGate._isCloseOnly order) then
          (PolicyGate.deny st now "DATA_STALE" ("Snapshot stale: " ++ toString age ++ "ms"), st)
        else
          let notional := order.notionalVal
          let maxOrder := st.config.maxOrderUsdt
          if maxOrder > 0 && notional > 0 && notional > maxOrder &&
              !(PolicyGate._isCloseOnly order) then
            (PolicyGate.deny st now "MAX_ORDER"
              ("Notional " ++ toString notional ++ " > " ++ toString maxOrder), st)
          else if PolicyGate._isCloseOnly order then
            (PolicyGate.allow st now "CLOSE_ONLY", st)
          else (PolicyGate.allow st now "PASS", st)

/-- `canExecute(order)` as in `src/server/gate.js`: step 0 refreshes
`lastSnapshotAt` to the current instant, then the rule pipeline runs. -/
def PolicyGate.canExecute (st : GateState) (now : Int) (order : Order) : Decision × GateState :=
  PolicyGate.pipeline { st with lastSnapshotAt := now } now order

/-- `canExecute(order)` as in the gate variant embedded in
`src/server/trade.js`: identical, except that a missing (`null`, modelled
`none`) or empty order record short-circuits to `EMPTY_ORDER_PASS` right
after the timestamp refresh, before any rule runs. -/
def PolicyGate.canExecuteV2 (st : GateState) (now : Int) (order : Option Order) :
    Decision × GateState :=
  let st := { st with lastSnapshotAt := now }
  match order with
  | none => (PolicyGate.allow st now "EMPTY_ORDER_PASS", st)
  | some o =>
    if o.isEmpty then (PolicyGate.allow st now "EMPTY_ORDER_PASS", st)
    else PolicyGate.pipeline st now o

/-- Repeated calls to `RateLimiter.allow` at the same instant: the limiter
state after `k` consecutive calls, all sampling `nowMs`. -/
def RateLimiter.iterAllow (nowMs : Int) (r : RateLimiter) : Nat → RateLimiter
  | 0 => r
  | k + 1 => ((RateLimiter.iterAllow nowMs r k).allow nowMs).snd

/-- A gate constructed with no configuration at instant 0. -/
def st0 : GateState := PolicyGate.init none 0

/-- A gate whose config sets `guards.max_staleness_ms = 1000`, constructed
(and last evaluated) at instant 0. -/
def stC1 : GateState :=
  PolicyGate.init (some { guards := some { max_staleness_ms := some 1000 } }) 0

/-- A plain open order: not close-only, small notional. -/
def oPlain : Order :=
  { symbol := some "ETHUSDT", side := some "buy", notional := some 500 }

/-- A close-only order via `intent === "close"`. -/
def oCloseW : Order :=
  { symbol := some "ETHUSDT", side := some "sell", intent := some "close" }

/-- A close-only order via a truthy `reduceOnly`. -/
def oCloseRL : Order :=
  { symbol := some "X", side := some "sell", reduceOnly := some true }

/-- A gate with the kill switch on and every other rule simultaneously
primed to fire: global halt, safe mode, the order's symbol halted, and the
rate limiter exhausted for wall-clock second 0. -/
def stKS : GateState :=
  { PolicyGate.init (some { kill_switch := some true }) 0 with
    globalHalt := true
    safeMode := true
    symbolHalt := ["ETHUSDT"]
    rateLimiter := { maxPerSec := 5, bucket := 5, ts := 0 } }

/-- A gate whose rate limiter is exhausted for wall-clock second 5
(5 requests already admitted), kill switch off. -/
def stRL : GateState :=
  { PolicyGate.init none 0 with rateLimiter := { maxPerSec := 5, bucket := 5, ts := 5 } }

/-- A gate with global halt, safe mode, a halted symbol `"X"`, a tiny
notional cap and a tiny staleness window all active at once (kill switch
off, rate limiter fresh). -/
def stAllOn : GateState :=
  { PolicyGate.init
      (some { limits := some { rate_per_sec := some 5, max_order_usdt := some 100 }
              guards := some { max_staleness_ms := some 1 } }) 0 with
    globalHalt := true
    safeMode := true
    symbolHalt := ["X"] }

/-- A gate constructed at instant 5000 (so its version is stamped 5000). -/
def stV7 : GateState := PolicyGate.init none 5000

/-- A replacement configuration (rate ceiling 7). -/
def cfg7 : Config := { limits := some { rate_per_sec := some 7 } }

/-- An order whose symbol is the uppercase variant of `"btcusdt"`. -/
def oW8 : Order :=
  { symbol := some "BTCUSDT", side := some "buy", notional := some 10 }

theorem jsOr_zero (a : Int) : jsOr a 0 = a := by
  unfold jsOr; split <;> omega

theorem mem_setAdd (l : List String) (a : String) : a ∈ setAdd l a := by
  unfold setAdd; split
  · assumption
  · simp

/-- The rule pipeline touches only the rate-limiter field of the state. -/
theorem pipeline_frame (st : GateState) (now : Int) (o : Order) :
    (PolicyGate.pipeline st now o).snd.config = st.config
    ∧ (PolicyGate.pipeline st now o).snd.version = st.version
    ∧ (PolicyGate.pipeline st now o).snd.symbolHalt = st.symbolHalt
    ∧ (PolicyGate.pipeline st now o).snd.globalHalt = st.globalHalt
    ∧ (PolicyGate.pipeline st now o).snd.safeMode = st.safeMode
    ∧ (PolicyGate.pipeline st now o).snd.lastSnapshotAt = st.lastSnapshotAt
    ∧ (PolicyGate.pipeline st now o).snd.startedAt = st.startedAt := by
  simp only [PolicyGate.pipeline]
  repeat' split
  all_goals exact ⟨rfl, rfl, rfl, rfl, rfl, rfl, rfl⟩

/-- Every decision the pipeline produces is stamped with the state's
current policy version. -/
theorem pipeline_version (st : GateState) (now : Int) (o : Order) :
    (PolicyGate.pipeline st now o).fst.policy_version = st.version := by
  simp only [PolicyGate.pipeline]
  repeat' split
  all_goals rfl

/-- Every decision of `canExecute` (the `gate.js` variant) carries a reason
code from the fixed enumeration minus `DATA_STALE`: because step 0 refreshes
`lastSnapshotAt` before the staleness rule reads it, the measured age is
`now - now = 0` and the `DATA_STALE` branch can never be taken. -/
theorem canExecute_reason_mem (st : GateState) (now : Int) (o : Order) :
    (PolicyGate.canExecute st now o).fst.reason_code ∈
      (["KILL_SWITCH_CLOSE_ONLY", "KILL_SWITCH", "GLOBAL_HALT", "SYMBOL_HALT",
        "RATE_LIMIT", "SAFE_MODE", "MAX_ORDER", "CLOSE_ONLY", "PASS"] : List String) := by
  unfold PolicyGate.canExecute
  simp only [PolicyGate.pipeline]
  repeat' split
  all_goals first
  | (exfalso
     rename_i h
     rw [jsOr_zero] at h
     simp only [Bool.and_eq_true, decide_eq_true_eq] at h
     omega)
  | simp [PolicyGate.allow, PolicyGate.deny]

/-- C1: the claim says the staleness guard measures the age since the
PREVIOUS evaluation's timestamp, taken before this call refreshes it, and
denies stale non-close-only orders with `DATA_STALE`.  The code instead
refreshes `lastSnapshotAt` first and then computes
`Date.now() - this.lastSnapshotAt`, which is 0, so the guard never fires:
with `max_staleness_ms = 1000`, a previous evaluation at instant 0 and the
current call at instant 1000000, the order is allowed with `PASS` (first
conjunct), and more generally no evaluation ever returns `DATA_STALE`
(second conjunct: the reason code always lies in the enumeration with
`DATA_STALE` removed). -/
theorem C1_staleness_guard_dead :
    ((PolicyGate.canExecute stC1 1000000 oPlain).fst =
      { allow := true, reason_code := "PASS", policy_version := 0,
        expires_at := some 1003000 })
    ∧ ∀ (st : GateState) (now : Int) (o : Order),
        (PolicyGate.canExecute st now o).fst.reason_code ∈
          (["KILL_SWITCH_CLOSE_ONLY", "KILL_SWITCH", "GLOBAL_HALT", "SYMBOL_HALT",
            "RATE_LIMIT", "SAFE_MODE", "MAX_ORDER", "CLOSE_ONLY", "PASS"] : List String) :=
  ⟨by decide, fun st now o => canExecute_reason_mem st now o⟩

/-- C2: with the kill switch on, every non-close-only order is denied
`KILL_SWITCH` and every close-only order is allowed
`KILL_SWITCH_CLOSE_ONLY`, for every gate state (global halt, symbol halts,
safe mode, exhausted rate limiter, staleness and notional configuration are
all universally quantified over and never consulted). -/
theorem C2_kill_switch_precedence (st : GateState) (now : Int) (o : Order)
    (hks : st.config.killSwitchOn = true) :
    (PolicyGate._isCloseOnly o = false →
      (PolicyGate.canExecute st now o).fst =
        { allow := false, reason_code := "KILL_SWITCH",
          reason_detail := some "Global kill switch enabled",
          policy_version := st.version, denied_at := some now })
    ∧ (PolicyGate._isCloseOnly o = true →
      (PolicyGate.canExecute st now o).fst =
        { allow := true, reason_code := "KILL_SWITCH_CLOSE_ONLY",
          policy_version := st.version, expires_at := some (now + 3000) }) := by
  unfold PolicyGate.canExecute
  simp only [PolicyGate.pipeline]
  constructor <;> intro h <;> simp [hks, h, PolicyGate.allow, PolicyGate.deny]

/-- C2 witness: a gate with the kill switch on and simultaneously global
halt, safe mode, the order's symbol halted and the rate limiter exhausted
still answers `KILL_SWITCH` / `KILL_SWITCH_CLOSE_ONLY`. -/
theorem C2_kill_switch_precedence_witness :
    (stKS.config.killSwitchOn = true)
    ∧ ((PolicyGate.canExecute stKS 7 oPlain).fst =
        { allow := false, reason_code := "KILL_SWITCH",
          reason_detail := some "Global kill switch enabled",
          policy_version := stKS.version, denied_at := some 7 })
    ∧ ((PolicyGate.canExecute stKS 7 oCloseW).fst =
        { allow := true, reason_code := "KILL_SWITCH_CLOSE_ONLY",
          policy_version := stKS.version, expires_at := some (7 + 3000) }) :=
  ⟨by decide,
   (C2_kill_switch_precedence stKS 7 oPlain (by decide)).1 (by decide),
   (C2_kill_switch_precedence stKS 7 oCloseW (by decide)).2 (by decide)⟩

/-- C3: a close-only order can only receive `KILL_SWITCH_CLOSE_ONLY`,
`RATE_LIMIT` or `CLOSE_ONLY` as its reason code — in particular never
`GLOBAL_HALT`, `SYMBOL_HALT`, `SAFE_MODE`, `DATA_STALE` or `MAX_ORDER` —
and `RATE_LIMIT` is actually reachable for a close-only order (second
conjunct: a gate whose limiter is exhausted for the current second denies a
reduce-only order with `RATE_LIMIT`). -/
theorem C3_close_only_bypass (st : GateState) (now : Int) (o : Order)
    (hco : PolicyGate._isCloseOnly o = true) :
    ((PolicyGate.canExecute st now o).fst.reason_code ∈
      (["KILL_SWITCH_CLOSE_ONLY", "RATE_LIMIT", "CLOSE_ONLY"] : List String))
    ∧ ((PolicyGate.canExecute stRL 5000 oCloseRL).fst.reason_code = "RATE_LIMIT") := by
  constructor
  · unfold PolicyGate.canExecute
    simp only [PolicyGate.pipeline]
    repeat' split
    all_goals simp_all [PolicyGate.allow, PolicyGate.deny]
  · decide

/-- C3 witness: a reduce-only order evaluated against a gate with global
halt, safe mode, its symbol halted, a tiny notional cap and a tiny
staleness window active receives one of the three permitted codes, and the
exhausted-limiter gate denies it `RATE_LIMIT`. -/
theorem C3_close_only_bypass_witness :
    (PolicyGate._isCloseOnly oCloseRL = true)
    ∧ ((PolicyGate.canExecute stAllOn 123 oCloseRL).fst.reason_code ∈
        (["KILL_SWITCH_CLOSE_ONLY", "RATE_LIMIT", "CLOSE_ONLY"] : List String))
    ∧ ((PolicyGate.canExecute stRL 5000 oCloseRL).fst.reason_code = "RATE_LIMIT") :=
  ⟨by decide, (C3_close_only_bypass stAllOn 123 oCloseRL (by decide)).1,
   (C3_close_only_bypass stAllOn 123 oCloseRL (by decide)).2⟩

/-- C4: in the trade.js-embedded gate variant, a missing (`none`) or empty
order record is always allowed with `EMPTY_ORDER_PASS` before any rule
runs, whatever the gate state; and in both variants every evaluation —
whatever order is passed and whatever decision results — leaves the
returned state's `lastSnapshotAt` equal to the evaluation instant. -/
theorem C4_empty_order_pass (st : GateState) (now : Int) (o : Order) (u : Option Order) :
    ((PolicyGate.canExecuteV2 st now none).fst =
      { allow := true, reason_code := "EMPTY_ORDER_PASS",
        policy_version := st.version, expires_at := some (now + 3000) })
    ∧ ((PolicyGate.canExecuteV2 st now (some {})).fst =
      { allow := true, reason_code := "EMPTY_ORDER_PASS",
        policy_version := st.version, expires_at := some (now + 3000) })
    ∧ ((PolicyGate.canExecuteV2 st now u).snd.lastSnapshotAt = now)
    ∧ ((PolicyGate.canExecute st now o).snd.lastSnapshotAt = now) := by
  refine ⟨rfl, rfl, ?_, ?_⟩
  · cases u with
    | none => rfl
    | some o2 =>
      unfold PolicyGate.canExecuteV2
      dsimp only
      split
      · rfl
      · exact (pipeline_frame _ now o2).2.2.2.2.2.1
  · exact (pipeline_frame _ now o).2.2.2.2.2.1

/-- C10: evaluation mutates at most `lastSnapshotAt` and the rate limiter:
in both gate variants the config, policy version, global-halt flag,
safe-mode flag, halted-symbol set and start time are unchanged by any
evaluation, whatever order is passed and whatever decision results. -/
theorem C10_evaluate_frame (st : GateState) (now : Int) (o : Order) (u : Option Order) :
    ((PolicyGate.canExecute st now o).snd.config = st.config
     ∧ (PolicyGate.canExecute st now o).snd.version = st.version
     ∧ (PolicyGate.canExecute st now o).snd.globalHalt = st.globalHalt
     ∧ (PolicyGate.canExecute st now o).snd.safeMode = st.safeMode
     ∧ (PolicyGate.canExecute st now o).snd.symbolHalt = st.symbolHalt
     ∧ (PolicyGate.canExecute st now o).snd.startedAt = st.startedAt)
    ∧ ((PolicyGate.canExecuteV2 st now u).snd.config = st.config
     ∧ (PolicyGate.canExecuteV2 st now u).snd.version = st.version
     ∧ (PolicyGate.canExecuteV2 st now u).snd.globalHalt = st.globalHalt
     ∧ (PolicyGate.canExecuteV2 st now u).snd.safeMode = st.safeMode
     ∧ (PolicyGate.canExecuteV2 st now u).snd.symbolHalt = st.symbolHalt
     ∧ (PolicyGate.canExecuteV2 st now u).snd.startedAt = st.startedAt) := by
  constructor
  · have h := pipeline_frame { st with lastSnapshotAt := now } now o
    exact ⟨h.1, h.2.1, h.2.2.2.1, h.2.2.2.2.1, h.2.2.1, h.2.2.2.2.2.2⟩
  · cases u with
    | none => exact ⟨rfl, rfl, rfl, rfl, rfl, rfl⟩
    | some o2 =>
      unfold PolicyGate.canExecuteV2
      dsimp only
      split
      · exact ⟨rfl, rfl, rfl, rfl, rfl, rfl⟩
      · have h := pipeline_frame { st with lastSnapshotAt := now } now o2
        exact ⟨h.1, h.2.1, h.2.2.2.1, h.2.2.2.2.1, h.2.2.1, h.2.2.2.2.2.2⟩

/-- Calling `RateLimiter.allow` on a limiter whose stored window differs
from the current second resets the window and admits. -/
theorem allow_fresh (r : RateLimiter) (nowMs : Int)
    (h : ¬ r.ts = nowMs.fdiv 1000) (hpos : 0 < r.maxPerSec) :
    r.allow nowMs = (true, { r with ts := nowMs.fdiv 1000, bucket := 1 }) := by
  simp only [RateLimiter.allow]
  rw [if_neg h]
  rw [if_neg (by simp; omega)]

/-- Within the current window and below the ceiling, `allow` increments
and admits. -/
theorem allow_same_under (r : RateLimiter) (nowMs : Int)
    (h : r.ts = nowMs.fdiv 1000) (hlt : (r.bucket : Int) < r.maxPerSec) :
    r.allow nowMs = (true, { r with bucket := r.bucket + 1 }) := by
  simp only [RateLimiter.allow]
  rw [if_pos h]
  rw [if_neg (by omega)]

/-- Within the current window and at or above the ceiling, `allow` denies
and leaves the state untouched. -/
theorem allow_full_same (r : RateLimiter) (nowMs : Int)
    (h : r.ts = nowMs.fdiv 1000) (hge : (r.bucket : Int) ≥ r.maxPerSec) :
    r.allow nowMs = (false, r) := by
  simp only [RateLimiter.allow]
  rw [if_pos h, if_pos hge]

/-- State invariant of repeated same-instant calls: after `k ≥ 1` calls the
limiter's window is the current second, the ceiling is unchanged, and the
counter is `min k N`. -/
theorem iterAllow_spec (nowMs : Int) (r0 : RateLimiter) (N : Nat)
    (hmax : r0.maxPerSec = (N : Int)) (hts : ¬ r0.ts = nowMs.fdiv 1000) (hN : 0 < N) :
    ∀ k, 0 < k →
      (RateLimiter.iterAllow nowMs r0 k).maxPerSec = (N : Int)
      ∧ (RateLimiter.iterAllow nowMs r0 k).ts = nowMs.fdiv 1000
      ∧ (RateLimiter.iterAllow nowMs r0 k).bucket = min k N := by
  intro k
  induction k with
  | zero => intro hk; exact absurd hk (by omega)
  | succ k ih =>
    intro _
    rcases Nat.eq_zero_or_pos k with h0 | hpos
    · subst h0
      have hfresh := allow_fresh r0 nowMs hts (by rw [hmax]; exact_mod_cast hN)
      simp only [RateLimiter.iterAllow, hfresh]
      exact ⟨hmax, by trivial, by omega⟩
    · obtain ⟨hm, ht, hb⟩ := ih hpos
      by_cases hfull : N ≤ k
      · have hge : ((RateLimiter.iterAllow nowMs r0 k).bucket : Int)
            ≥ (RateLimiter.iterAllow nowMs r0 k).maxPerSec := by
          rw [hm, hb]; omega
        simp only [RateLimiter.iterAllow, allow_full_same _ nowMs ht hge]
        refine ⟨hm, ht, ?_⟩
        rw [hb]; omega
      · have hlt : ((RateLimiter.iterAllow nowMs r0 k).bucket : Int)
            < (RateLimiter.iterAllow nowMs r0 k).maxPerSec := by
          rw [hm, hb]; omega
        simp only [RateLimiter.iterAllow, allow_same_under _ nowMs ht hlt]
        refine ⟨hm, ht, ?_⟩
        rw [hb]; omega

/-- C5: for a positive ceiling `N` and a limiter that has not yet seen the
current wall-clock second, the `k`-th same-second call to `allow` (after
`k` earlier calls) is admitted exactly when `k < N`; every call at or past
the ceiling leaves the limiter state completely unchanged (no increment);
after any positive number of calls, a call whose instant lies in a
different wall-clock second is admitted again with the counter reset (to 0,
then incremented to 1); and `allow` depends on its instant only through
the wall-clock second, so these facts cover any spread of call instants
inside one second. -/
theorem C5_rate_limiter_window (N : Nat) (nowMs now2 : Int) (r0 : RateLimiter)
    (hN : 0 < N) (hmax : r0.maxPerSec = (N : Int))
    (hts : ¬ r0.ts = nowMs.fdiv 1000)
    (hadv : ¬ now2.fdiv 1000 = nowMs.fdiv 1000) :
    (∀ k, ((RateLimiter.iterAllow nowMs r0 k).allow nowMs).fst = decide (k < N))
    ∧ (∀ k, N ≤ k →
        ((RateLimiter.iterAllow nowMs r0 k).allow nowMs).snd = RateLimiter.iterAllow nowMs r0 k)
    ∧ (∀ k, 0 < k →
        ((RateLimiter.iterAllow nowMs r0 k).allow now2).fst = true
        ∧ ((RateLimiter.iterAllow nowMs r0 k).allow now2).snd.bucket = 1)
    ∧ (∀ a b : Int, a.fdiv 1000 = b.fdiv 1000 → ∀ (r : RateLimiter), r.allow a = r.allow b) := by
  refine ⟨?_, ?_, ?_, ?_⟩
  · intro k
    rcases Nat.eq_zero_or_pos k with h0 | hpos
    · subst h0
      have hfresh := allow_fresh r0 nowMs hts (by rw [hmax]; exact_mod_cast hN)
      simp only [RateLimiter.iterAllow, hfresh]
      simp [hN]
    · obtain ⟨hm, ht, hb⟩ := iterAllow_spec nowMs r0 N hmax hts hN k hpos
      by_cases hk : k < N
      · have hlt : ((RateLimiter.iterAllow nowMs r0 k).bucket : Int)
            < (RateLimiter.iterAllow nowMs r0 k).maxPerSec := by
          rw [hm, hb]; omega
        rw [allow_same_under _ nowMs ht hlt]
        simp [hk]
      · have hge : ((RateLimiter.iterAllow nowMs r0 k).bucket : Int)
            ≥ (RateLimiter.iterAllow nowMs r0 k).maxPerSec := by
          rw [hm, hb]; omega
        rw [allow_full_same _ nowMs ht hge]
        simp [hk]
  · intro k hNk
    obtain ⟨hm, ht, hb⟩ := iterAllow_spec nowMs r0 N hmax hts hN k (by omega)
    have hge : ((RateLimiter.iterAllow nowMs r0 k).bucket : Int)
        ≥ (RateLimiter.iterAllow nowMs r0 k).maxPerSec := by
      rw [hm, hb]; omega
    rw [allow_full_same _ nowMs ht hge]
  · intro k hpos
    obtain ⟨hm, ht, hb⟩ := iterAllow_spec nowMs r0 N hmax hts hN k hpos
    have hts2 : ¬ (RateLimiter.iterAllow nowMs r0 k).ts = now2.fdiv 1000 := by
      rw [ht]; exact fun hcon => hadv hcon.symm
    rw [allow_fresh _ now2 hts2 (by rw [hm]; exact_mod_cast hN)]
    exact ⟨rfl, rfl⟩
  · intro a b hab r
    simp only [RateLimiter.allow]
    rw [hab]

/-- C5 witness: a fresh limiter with ceiling 2 at instant 1500 ms admits
calls 1 and 2, denies call 3 without changing state, and admits again at
instant 2100 ms (the next second). -/
theorem C5_rate_limiter_window_witness :
    (0 < 2)
    ∧ (((RateLimiter.iterAllow 1500 (RateLimiter.new 2) 0).allow 1500).fst = true)
    ∧ (((RateLimiter.iterAllow 1500 (RateLimiter.new 2) 1).allow 1500).fst = true)
    ∧ (((RateLimiter.iterAllow 1500 (RateLimiter.new 2) 2).allow 1500).fst = false)
    ∧ (((RateLimiter.iterAllow 1500 (RateLimiter.new 2) 2).allow 1500).snd
        = RateLimiter.iterAllow 1500 (RateLimiter.new 2) 2)
    ∧ (((RateLimiter.iterAllow 1500 (RateLimiter.new 2) 2).allow 2100).fst = true) := by
  have h := C5_rate_limiter_window 2 1500 2100 (RateLimiter.new 2)
    (by decide) (by decide) (by decide) (by decide)
  exact ⟨by decide, (h.1 0).trans (by decide), (h.1 1).trans (by decide),
    (h.1 2).trans (by decide), h.2.1 2 (by decide), (h.2.2.1 2 (by decide)).1⟩

/-- C6 counterexample: a configured ceiling of -1 does NOT behave like the
default ceiling 5 — the very first call is denied, where the default admits
it.  (The claim asserts every ceiling ≤ 0 behaves like the default and
never yields a limiter that denies every request.) -/
theorem C6_counterexample :
    (((RateLimiter.new (-1)).allow 0).fst = false)
    ∧ (((RateLimiter.new 5).allow 0).fst = true) := by decide

/-- C6 (amended): a configured ceiling equal to 0 is treated as the default
ceiling 5 (the constructed limiter states are identical), but a negative
ceiling is kept as-is, and any limiter whose ceiling is negative denies
every request from every reachable state. -/
theorem C6_zero_ceiling_defaults (m : Int) (r : RateLimiter) (nowMs : Int)
    (hm : m < 0) (hr : r.maxPerSec = m) :
    (RateLimiter.new 0 = RateLimiter.new 5) ∧ ((r.allow nowMs).fst = false) := by
  constructor
  · rfl
  · simp only [RateLimiter.allow]
    split
    · rw [if_pos (by rw [hr]; omega)]
    · rw [if_pos (by simp [hr]; omega)]

/-- C6 witness: the ceiling-0 limiter coincides with the default one, and
the ceiling-(-1) limiter denies a call at instant 12345. -/
theorem C6_zero_ceiling_defaults_witness :
    ((-1 : Int) < 0)
    ∧ ((RateLimiter.new 0 = RateLimiter.new 5)
       ∧ (((RateLimiter.new (-1)).allow 12345).fst = false)) :=
  ⟨by decide, C6_zero_ceiling_defaults (-1) (RateLimiter.new (-1)) 12345 (by decide) (by decide)⟩

/-- C7 counterexample: replacing the configuration at the same millisecond
that stamped the current version (gate constructed at instant 5000, config
replaced at instant 5000) leaves the policy version unchanged, and a
decision taken after the replacement carries the same version as one taken
before it — the claim that every replacement changes the version fails. -/
theorem C7_counterexample :
    ((PolicyGate.updateConfig stV7 5000 (some cfg7)).version = stV7.version)
    ∧ ((PolicyGate.canExecute (PolicyGate.updateConfig stV7 5000 (some cfg7)) 5100 oPlain).fst.policy_version
       = (PolicyGate.canExecute stV7 4900 oPlain).fst.policy_version) := by decide

/-- C7 (amended): `updateConfig` restamps the version from the instant of
the call, so the version changes exactly when that instant differs from the
one that stamped the current version; every decision is stamped with the
version active at evaluation time and evaluation never changes the version,
so all decisions within one config epoch carry the same version. -/
theorem C7_version_stamping (st : GateState) (t now : Int) (cfg : Option Config) (o : Order)
    (h : ¬ t = st.version) :
    ((PolicyGate.updateConfig st t cfg).version = t)
    ∧ (¬ (PolicyGate.updateConfig st t cfg).version = st.version)
    ∧ ((PolicyGate.canExecute st now o).fst.policy_version = st.version)
    ∧ ((PolicyGate.canExecute st now o).snd.version = st.version) := by
  refine ⟨rfl, ?_, ?_, ?_⟩
  · exact h
  · exact pipeline_version _ now o
  · exact (pipeline_frame _ now o).2.1

/-- C7 witness: replacing the config of the instant-5000 gate at instant
6000 restamps the version to 6000 (different from 5000), and a decision of
the old gate carries version 5000. -/
theorem C7_version_stamping_witness :
    ((stV7.version = 5000) ∧ ((6000 : Int) = 6000))
    ∧ (((PolicyGate.updateConfig stV7 6000 (some cfg7)).version = 6000)
       ∧ (¬ (PolicyGate.updateConfig stV7 6000 (some cfg7)).version = stV7.version)
       ∧ ((PolicyGate.canExecute stV7 5100 oPlain).fst.policy_version = stV7.version)
       ∧ ((PolicyGate.canExecute stV7 5100 oPlain).snd.version = stV7.version)) :=
  ⟨⟨by decide, by decide⟩, C7_version_stamping stV7 6000 5100 (some cfg7) oPlain (by decide)⟩

/-- C8: symbol halting is case-insensitive.  For any symbol `s` whose
uppercase form is nonempty (the spec itself makes blank symbols a no-op for
`setSymbolHalt`), after `setSymbolHalt s true` any non-close-only order
whose symbol has the same uppercase form — i.e. differs from `s` only in
letter case — is denied `SYMBOL_HALT` with the uppercase-normalized symbol
in the detail, provided no earlier rule (kill switch, global halt) fires. -/
theorem C8_symbol_halt_case_insensitive (st : GateState) (s : String) (o : Order) (now : Int)
    (hs : ¬ jsToUpper s = "")
    (hsym : jsToUpper (o.symbol.getD "") = jsToUpper s)
    (hco : PolicyGate._isCloseOnly o = false)
    (hks : st.config.killSwitchOn = false)
    (hgh : st.globalHalt = false) :
    (PolicyGate.canExecute (PolicyGate.setSymbolHalt st (some s) true) now o).fst =
      { allow := false, reason_code := "SYMBOL_HALT",
        reason_detail := some ("Symbol " ++ jsToUpper s ++ " halted"),
        policy_version := st.version, denied_at := some now } := by
  unfold PolicyGate.canExecute PolicyGate.setSymbolHalt
  simp only [PolicyGate.pipeline]
  simp [hs, hks, hgh, hco, hsym, PolicyGate.deny, mem_setAdd]

/-- C8 witness: halting `"btcusdt"` denies an order for `"BTCUSDT"` with
`SYMBOL_HALT` and detail `Symbol BTCUSDT halted`. -/
theorem C8_symbol_halt_case_insensitive_witness :
    (jsToUpper "BTCUSDT" = jsToUpper "btcusdt")
    ∧ ((PolicyGate.canExecute (PolicyGate.setSymbolHalt st0 (some "btcusdt") true) 50 oW8).fst =
       { allow := false, reason_code := "SYMBOL_HALT",
         reason_detail := some ("Symbol " ++ jsToUpper "btcusdt" ++ " halted"),
         policy_version := st0.version, denied_at := some 50 }) :=
  ⟨by decide,
   C8_symbol_halt_case_insensitive st0 "btcusdt" oW8 50
     (by decide) (by decide) (by decide) (by decide) (by decide)⟩

/-- C9 counterexample: `setSymbolHalt` with the whitespace-only symbol
`" "` is NOT a no-op — `" "` is truthy in JavaScript, survives
uppercasing, and is added to the halted-symbol set, changing the gate
state.  (The claim asserts blank symbols are no-ops like empty ones.) -/
theorem C9_counterexample :
    ((PolicyGate.setSymbolHalt st0 (some " ") true).symbolHalt = [" "])
    ∧ (st0.symbolHalt = ([] : List String))
    ∧ (¬ PolicyGate.setSymbolHalt st0 (some " ") true = st0) := by decide

/-- C9 (amended): `setSymbolHalt` with a missing (`none`) or empty (`""`)
symbol is a no-op in both the halt-on and halt-off direction — the entire
gate state is returned unchanged; only the empty string is falsy, so
whitespace-only symbols are handled like any other symbol. -/
theorem C9_empty_symbol_noop (st : GateState) (b : Bool) :
    (PolicyGate.setSymbolHalt st none b = st)
    ∧ (PolicyGate.setSymbolHalt st (some "") b = st) := by
  constructor <;> rfl
